import Mathlib

/-!
Verification of the instruction codec, account-record slicing, validation
traits and error handling of `src/main.rs` (simply_rust).

Byte buffers are modelled as `List Nat` whose entries stand for `u8`
values (each `< 256`); machine-integer reads that cannot overflow are
modelled exactly.  Rust functions whose only outcomes are `println!`
reports are modelled by a result type with one constructor per report
shape; Rust code that can panic (out-of-bounds indexing/slicing) is
modelled as `Option`, with `none` standing for the panic.
-/

namespace SimplyRust

/-- `u32::from_le_bytes([b0,b1,b2,b3])`: little-endian value of four bytes.
For bytes `< 256` this is exact (no overflow is possible for a `u32`). -/
def u32_from_le (b0 b1 b2 b3 : Nat) : Nat :=
  b0 + 256 * b1 + 256 ^ 2 * b2 + 256 ^ 3 * b3

/-- `(x as u64).to_le_bytes()`: the eight little-endian bytes of `x` (mod 2^64). -/
def u64_to_le_bytes (x : Nat) : List Nat :=
  [x % 256, x / 256 % 256, x / 256 ^ 2 % 256, x / 256 ^ 3 % 256,
   x / 256 ^ 4 % 256, x / 256 ^ 5 % 256, x / 256 ^ 6 % 256, x / 256 ^ 7 % 256]

/-- The observable outcome of `process_instruction` (src/main.rs:831-854),
whose Rust return type is `()` and whose outcomes are `println!` reports. -/
inductive ProcResult where
  | tooShort
  | initInstr
  | createAccount
  | transfer (payload : Option (Nat × Nat))
  | unknown (b : Nat)
  deriving DecidableEq, Repr

/-- The Transfer payload read at src/main.rs:845-849: only when
`data.len() >= 12`, `amount` from bytes 4..8 and `recipient_id` from
bytes 8..12, both 4-byte little-endian. -/
def transfer_payload (data : List Nat) : Option (Nat × Nat) :=
  if 12 ≤ data.length then
    some (u32_from_le (data.getD 4 0) (data.getD 5 0) (data.getD 6 0) (data.getD 7 0),
          u32_from_le (data.getD 8 0) (data.getD 9 0) (data.getD 10 0) (data.getD 11 0))
  else none

/-- `process_instruction` (src/main.rs:831-854).  Rejects buffers shorter
than 4 bytes as "too short", then matches byte 0: `0 => Initialize`,
`1 => Create account`, `2 => Transfer` (with optional payload),
`_ => Unknown` carrying the byte.  The Rust `match` on integer literal
patterns is rendered as the equivalent chain of equality tests. -/
def process_instruction (data : List Nat) : ProcResult :=
  if data.length < 4 then .tooShort
  else
    let instruction_type := data.getD 0 0
    if instruction_type = 0 then .initInstr
    else if instruction_type = 1 then .createAccount
    else if instruction_type = 2 then .transfer (transfer_payload data)
    else .unknown instruction_type

/-- The buffers built by the `instruction_data!` macro (src/main.rs:1896-1911).
`transfer` arm: tag byte `0` followed by `($amount as u64).to_le_bytes()`. -/
def instruction_data_transfer (amount : Nat) : List Nat :=
  0 :: u64_to_le_bytes amount

/-- `instruction_data!` `mint` arm: tag byte `1`, eight little-endian amount
bytes, then the decimals byte. -/
def instruction_data_mint (amount decimals : Nat) : List Nat :=
  1 :: (u64_to_le_bytes amount ++ [decimals])

/-- Whether a continuation byte of a UTF-8 sequence is in `0x80..=0xBF`. -/
def utf8_cont (c : Nat) : Bool :=
  0x80 ≤ c && c ≤ 0xBF

/-- The UTF-8 validity check performed by `std::str::from_utf8`
(core::str validation): ASCII is one byte; `0xC2..=0xDF` lead a 2-byte
sequence; `0xE0`, `0xE1..=0xEC`, `0xED`, `0xEE..=0xEF` lead 3-byte
sequences with the standard restricted second byte (no overlong forms, no
surrogates); `0xF0`, `0xF1..=0xF3`, `0xF4` lead 4-byte sequences (no
overlong forms, nothing above U+10FFFF). -/
def utf8_valid : List Nat → Bool
  | [] => true
  | b :: rest =>
    if b ≤ 0x7F then utf8_valid rest
    else if 0xC2 ≤ b && b ≤ 0xDF then
      match rest with
      | c1 :: rest2 => utf8_cont c1 && utf8_valid rest2
      | [] => false
    else if 0xE0 ≤ b && b ≤ 0xEF then
      match rest with
      | c1 :: c2 :: rest3 =>
        (if b = 0xE0 then 0xA0 ≤ c1 && c1 ≤ 0xBF
         else if b = 0xED then 0x80 ≤ c1 && c1 ≤ 0x9F
         else utf8_cont c1) && utf8_cont c2 && utf8_valid rest3
      | _ => false
    else if 0xF0 ≤ b && b ≤ 0xF4 then
      match rest with
      | c1 :: c2 :: c3 :: rest4 =>
        (if b = 0xF0 then 0x90 ≤ c1 && c1 ≤ 0xBF
         else if b = 0xF4 then 0x80 ≤ c1 && c1 ≤ 0x8F
         else utf8_cont c1) && utf8_cont c2 && utf8_cont c3 && utf8_valid rest4
      | _ => false
    else false

/-- The UTF-8 bytes of the literal `"Invalid UTF-8"` substituted by
`unwrap_or` at src/main.rs:806. -/
def invalid_utf8_placeholder : List Nat :=
  [73, 110, 118, 97, 108, 105, 100, 32, 85, 84, 70, 45, 56]

/-- `std::str::from_utf8(bytes).unwrap_or("Invalid UTF-8")`
(src/main.rs:806), with a `&str` value represented by its UTF-8 bytes. -/
def from_utf8_or_default (bytes : List Nat) : List Nat :=
  if utf8_valid bytes then bytes else invalid_utf8_placeholder

/-- The account-record slicing performed at src/main.rs:799-803:
`instruction_type = account_data[0]`, `name_length = account_data[8]`,
`name_slice = &account_data[9..9 + name_length]`.  The Rust code indexes
and slices directly, so it panics when an index or the slice upper bound
is out of range; `none` models that panic.  (`account_data[0]` needs
length ≥ 1 and `account_data[8]` needs length ≥ 9; both are subsumed by
the single `9 ≤ length` test.) -/
def parse_account_record (data : List Nat) : Option (Nat × Nat × List Nat) :=
  if 9 ≤ data.length then
    let instruction_type := data.getD 0 0
    let name_length := data.getD 8 0
    if 9 + name_length ≤ data.length then
      some (instruction_type, name_length, (data.drop 9).take name_length)
    else none
  else none

/-- Lines 799-806 end to end: the name slice pushed through
`from_utf8(...).unwrap_or("Invalid UTF-8")`. -/
def token_pair_name (data : List Nat) : Option (List Nat) :=
  (parse_account_record data).map fun r => from_utf8_or_default r.2.2

/-! ### The `Transaction` trait (src/main.rs:951-1015)

Rust trait objects over heterogeneous structs are modelled per concrete
type; the trait's default `is_valid` body is written once and reused by
every type that does not override it. -/

/-- The `Transaction` trait's default `is_valid` body (src/main.rs:957-959):
`self.verify() && self.amount() > 0`. -/
def transaction_default_is_valid (verify : Bool) (amount : Nat) : Bool :=
  verify && decide (amount > 0)

/-- `struct TokenTransfer` (src/main.rs:963-968).  `from` and `to` are Lean
keywords, so those fields are named `from_addr` and `to_addr`. -/
structure TokenTransfer where
  from_addr : String
  to_addr : String
  amount_lamports : Nat
  sig : String

/-- `TokenTransfer::signature` (src/main.rs:972-974). -/
def TokenTransfer.signature (t : TokenTransfer) : String := t.sig

/-- `TokenTransfer::amount` (src/main.rs:976-978). -/
def TokenTransfer.amount (t : TokenTransfer) : Nat := t.amount_lamports

/-- Rust `str::starts_with` on a string pattern: the pattern is a prefix
of the string.  (Lean's own `String.startsWith` is byte-position based and
does not reduce well; over the character list this is the same test.) -/
def starts_with (s pre : String) : Bool :=
  pre.data.isPrefixOf s.data

/-- `TokenTransfer::verify` (src/main.rs:980-984): the stub check
`self.sig.starts_with("0x")`. -/
def TokenTransfer.verify (t : TokenTransfer) : Bool :=
  starts_with t.sig "0x"

/-- `TokenTransfer` uses the trait's default `is_valid` (src/main.rs:986). -/
def TokenTransfer.is_valid (t : TokenTransfer) : Bool :=
  transaction_default_is_valid t.verify t.amount

/-- `struct NFTTransfer` (src/main.rs:990-996). -/
structure NFTTransfer where
  collection : String
  token_id : Nat
  new_owner : String
  signed_by : String
  sig : String

/-- `NFTTransfer::amount` (src/main.rs:1003-1005): always `1`. -/
def NFTTransfer.amount (_ : NFTTransfer) : Nat := 1

/-- `NFTTransfer::verify` (src/main.rs:1007-1009). -/
def NFTTransfer.verify (t : NFTTransfer) : Bool :=
  !t.sig.isEmpty && t.signed_by = "authority"

/-- `NFTTransfer::is_valid` overrides the default (src/main.rs:1012-1014). -/
def NFTTransfer.is_valid (t : NFTTransfer) : Bool :=
  t.verify && decide (t.token_id > 0) && !t.collection.isEmpty

/-! ### The `Account` trait (src/main.rs:1092-1139) -/

/-- The rent-exemption threshold literal in the `Account` trait's default
`is_rent_exempt` (src/main.rs:1098). -/
def RENT_EXEMPT_MIN_LAMPORTS : Nat := 890880

/-- The `Account` trait's default `is_rent_exempt` body (src/main.rs:1097-1099):
`self.lamports() >= 890_880`. -/
def account_default_is_rent_exempt (lamports : Nat) : Bool :=
  decide (lamports ≥ RENT_EXEMPT_MIN_LAMPORTS)

/-- `struct UserAccount` (src/main.rs:1103-1106); its `lamports()` returns
the stored field (src/main.rs:1109-1111). -/
structure UserAccount where
  name : String
  lamports : Nat

/-- `UserAccount` uses the trait's default `is_rent_exempt`
(src/main.rs:1108-1119 contains no override). -/
def UserAccount.is_rent_exempt (a : UserAccount) : Bool :=
  account_default_is_rent_exempt a.lamports

/-- `struct ProgramAccount` (src/main.rs:1122-1125). -/
structure ProgramAccount where
  id : String
  is_executable : Bool

/-- `ProgramAccount::lamports` returns the constant `1_000_000`
(src/main.rs:1128-1131), not stored state. -/
def ProgramAccount.lamports (_ : ProgramAccount) : Nat := 1000000

/-- `ProgramAccount` also uses the trait's default `is_rent_exempt`. -/
def ProgramAccount.is_rent_exempt (a : ProgramAccount) : Bool :=
  account_default_is_rent_exempt a.lamports

/-! ### Error handling (src/main.rs:1444-1629) -/

/-- `enum TokenError` (src/main.rs:1444-1450). -/
inductive TokenError where
  | InsufficientBalance
  | AccountNotFound
  | UnauthorizedSigner
  | InvalidAmount
  deriving DecidableEq, Repr

/-- `enum ComplexError` (src/main.rs:1605-1610). -/
inductive ComplexError where
  | Token (e : TokenError)
  | Network (msg : String)
  | Serialization
  deriving DecidableEq, Repr

/-- `impl From<TokenError> for ComplexError` (src/main.rs:1613-1617):
`ComplexError::Token(err)`.  (`from` is a Lean keyword, hence the name.) -/
def ComplexError.fromTokenError (err : TokenError) : ComplexError :=
  ComplexError.Token err

/-- Recovering the wrapped domain error from a `ComplexError`: the inverse
direction showing the conversion loses nothing. -/
def ComplexError.token_kind : ComplexError → Option TokenError
  | ComplexError.Token e => some e
  | _ => none

/-- `find_account` (src/main.rs:1534-1540); the Rust `match` on string
literals is rendered as the equivalent chain of equality tests. -/
def find_account (id : String) : Option String :=
  if id = "alice" then some ("Alice\x27s Account")
  else if id = "bob" then some ("Bob\x27s Account")
  else none

/-- `transfer_tokens` (src/main.rs:1542-1558); `format!("tx-{}-{}-{}", ...)`
is string concatenation with the decimal rendering of `amount`. -/
def transfer_tokens (from_addr to_addr : String) (amount : Nat) : Except TokenError String :=
  if from_addr = "missing" then .error .AccountNotFound
  else if amount > 1000 then .error .InsufficientBalance
  else if amount = 0 then .error .InvalidAmount
  else .ok ("tx-" ++ from_addr ++ "-" ++ to_addr ++ "-" ++ toString amount)

/-- `process_transaction_with_result` (src/main.rs:1561-1583): explicit
`match`-based propagation. -/
def process_transaction_with_result (from_addr to_addr : String) (amount : Nat) :
    Except TokenError String :=
  match find_account from_addr with
  | none => .error .AccountNotFound
  | some from_account =>
    match find_account to_addr with
    | none => .error .AccountNotFound
    | some to_account =>
      match transfer_tokens from_addr to_addr amount with
      | .error err => .error err
      | .ok tx_id =>
        .ok ("Processed: " ++ from_account ++ " -> " ++ to_account ++ " ("
          ++ toString amount ++ "): " ++ tx_id)

/-- `Option::ok_or` as used at src/main.rs:1592-1593. -/
def option_ok_or {α ε : Type} (o : Option α) (e : ε) : Except ε α :=
  match o with
  | some a => .ok a
  | none => .error e

/-- `process_transaction_with_question_mark` (src/main.rs:1586-1602): the
same pipeline with `?`, i.e. monadic bind in `Except`. -/
def process_transaction_with_question_mark (from_addr to_addr : String) (amount : Nat) :
    Except TokenError String := do
  let from_account ← option_ok_or (find_account from_addr) TokenError.AccountNotFound
  let to_account ← option_ok_or (find_account to_addr) TokenError.AccountNotFound
  let tx_id ← transfer_tokens from_addr to_addr amount
  pure ("Processed: " ++ from_account ++ " -> " ++ to_account ++ " ("
    ++ toString amount ++ "): " ++ tx_id)

/-! ## Theorems -/

/-- C1, counterexample.  The claim says every buffer of length ≥ 1 with
byte 0 in {0,..,4} is routed to the corresponding operation (3 to Mint,
4 to Burn).  In the code, `[0]` is rejected as too short (routing needs
length ≥ 4), and `[3,0,0,0]` is reported as Unknown 3 — there is no Mint
arm at all. -/
theorem opcode_routing_counterexample :
    process_instruction [0] = .tooShort ∧
    process_instruction [3, 0, 0, 0] = .unknown 3 := by
  exact ⟨by decide, by decide⟩

/-- C1, amended.  For every buffer of length ≥ 4, byte 0 equal to 0, 1 or
2 is routed to Initialize, CreateAccount or Transfer respectively, and
every other byte-0 value — including 3 and 4 — is reported as Unknown
carrying that exact byte. -/
theorem opcode_routing (data : List Nat) (h : 4 ≤ data.length) :
    (data.getD 0 0 = 0 → process_instruction data = .initInstr) ∧
    (data.getD 0 0 = 1 → process_instruction data = .createAccount) ∧
    (data.getD 0 0 = 2 → process_instruction data = .transfer (transfer_payload data)) ∧
    (2 < data.getD 0 0 → process_instruction data = .unknown (data.getD 0 0)) := by
  have hlt : ¬ data.length < 4 := Nat.not_lt.mpr h
  refine ⟨fun hb => ?_, fun hb => ?_, fun hb => ?_, fun hb => ?_⟩ <;>
    simp only [List.getD_eq_getElem?_getD] at hb
  · simp [process_instruction, List.getD, hlt, hb]
  · simp [process_instruction, List.getD, hlt, hb]
  · simp [process_instruction, List.getD, hlt, hb]
  · have h0 : data[0]?.getD 0 ≠ 0 := by omega
    have h1 : data[0]?.getD 0 ≠ 1 := by omega
    have h2 : data[0]?.getD 0 ≠ 2 := by omega
    simp [process_instruction, List.getD, hlt, h0, h1, h2]

/-- C1 witness: the routing theorem applied at the concrete buffers
`[1,9,9,9]` and `[4,0,0,0]`. -/
theorem opcode_routing_witness :
    process_instruction [1, 9, 9, 9] = .createAccount ∧
    process_instruction [4, 0, 0, 0] = .unknown 4 := by
  exact ⟨(opcode_routing [1, 9, 9, 9] (by decide)).2.1 rfl,
         (opcode_routing [4, 0, 0, 0] (by decide)).2.2.2 (by decide)⟩

/-- C2, counterexample.  The claim says every buffer shorter than its
opcode's minimum is rejected with a typed `TruncatedInput` error.  A
Transfer needs 12 bytes for its payload, yet `[2,0,0,0]` (length 4)
completes normally with the bare informational Transfer report — no error
value of any kind is produced. -/
theorem truncation_counterexample :
    process_instruction [2, 0, 0, 0] = .transfer none := by decide

/-- C2, amended.  Only buffers shorter than 4 bytes are reported as
too-short — a printed diagnostic followed by a plain return, not a typed
`TruncatedInput` value (the Rust function returns `()`), and the same
report for every opcode; a Transfer buffer of length 4..11, although
below the 12-byte payload minimum, completes with an informational report
and no error at all. -/
theorem truncation_behavior :
    (∀ data : List Nat, data.length < 4 → process_instruction data = .tooShort) ∧
    (∀ data : List Nat, 4 ≤ data.length → data.getD 0 0 = 2 → data.length < 12 →
      process_instruction data = .transfer none) := by
  constructor
  · intro data h
    simp [process_instruction, h]
  · intro data h4 h0 h12
    have hlt : ¬ data.length < 4 := Nat.not_lt.mpr h4
    have hp : transfer_payload data = none := by
      simp [transfer_payload, Nat.not_le.mpr h12]
    simp only [List.getD_eq_getElem?_getD] at h0
    simp [process_instruction, List.getD, hlt, h0, hp]

/-- C2 witness: the truncation theorem applied at `[]` and `[2,7,7,7]`. -/
theorem truncation_behavior_witness :
    process_instruction [] = .tooShort ∧
    process_instruction [2, 7, 7, 7] = .transfer none := by
  exact ⟨truncation_behavior.1 [] (by decide),
         truncation_behavior.2 [2, 7, 7, 7] (by decide) (by decide) (by decide)⟩

/-- C3, counterexample.  The claim says `decode(encode(opcode, fields))`
returns the encoded opcode and fields, with `instruction_data!` as the
encoder.  But `instruction_data!(transfer, 100)` is
`[0,100,0,0,0,0,0,0,0]` — tag byte 0 and an 8-byte amount — which
`process_instruction` routes to Initialize, not Transfer. -/
theorem round_trip_counterexample :
    process_instruction (instruction_data_transfer 100) = .initInstr := by decide

/-- C3, amended.  Decoding the literal buffer `[2,0,0,0,100,0,0,0,50,0,0,0]`
(built directly at src/main.rs:788, not by the encoder) yields
opcode = Transfer, amount = 100, recipient = 50; the encoder
`instruction_data!` uses tag byte 0 and an 8-byte little-endian amount for
its transfer arm, so decoding any buffer it produces yields Initialize and
the round-trip law fails for every amount. -/
theorem transfer_decode_literal :
    process_instruction [2, 0, 0, 0, 100, 0, 0, 0, 50, 0, 0, 0]
      = .transfer (some (100, 50)) ∧
    ∀ amount : Nat,
      process_instruction (instruction_data_transfer amount) = .initInstr := by
  refine ⟨by decide, fun amount => ?_⟩
  simp [process_instruction, instruction_data_transfer, u64_to_le_bytes]

/-- C4, counterexample.  The claim says account-record parsing is total:
a `TruncatedInput` error when `9 + N` overruns the buffer, never a panic.
On the 9-byte buffer `[1,0,0,0,255,255,255,255,5]` the length byte is 5,
the slice `&data[9..14]` is out of range, and the Rust code panics
(modelled by `none`) instead of returning any error value. -/
theorem account_parse_counterexample :
    parse_account_record [1, 0, 0, 0, 255, 255, 255, 255, 5] = none := by decide

/-- C4, amended.  The slicing at src/main.rs:799-806 panics — it does not
return a `TruncatedInput` error — whenever the buffer has fewer than 9
bytes or the declared name length `N` (byte 8) makes `9 + N` exceed the
buffer length; when `9 + N` fits, it returns the type byte, `N`, and
exactly the `N` bytes at offsets 9..9+N, and a name that is not valid
UTF-8 does not yield an `InvalidEncoding` error: the placeholder text
`"Invalid UTF-8"` is substituted instead. -/
theorem account_parse_spec (data : List Nat) :
    (data.length < 9 → parse_account_record data = none) ∧
    (9 ≤ data.length → data.length < 9 + data.getD 8 0 →
      parse_account_record data = none) ∧
    (9 ≤ data.length → 9 + data.getD 8 0 ≤ data.length →
      parse_account_record data
          = some (data.getD 0 0, data.getD 8 0, (data.drop 9).take (data.getD 8 0)) ∧
        ((data.drop 9).take (data.getD 8 0)).length = data.getD 8 0 ∧
        token_pair_name data
          = some (if utf8_valid ((data.drop 9).take (data.getD 8 0))
                  then (data.drop 9).take (data.getD 8 0)
                  else invalid_utf8_placeholder)) := by
  refine ⟨fun h => ?_, fun h9 hover => ?_, fun h9 hfit => ?_⟩
  · simp [parse_account_record, Nat.not_le.mpr h]
  · simp only [List.getD_eq_getElem?_getD] at hover
    simp [parse_account_record, List.getD, h9, Nat.not_le.mpr hover]
  · simp only [List.getD_eq_getElem?_getD] at hfit
    have hsome : parse_account_record data
        = some (data.getD 0 0, data.getD 8 0, (data.drop 9).take (data.getD 8 0)) := by
      simp [parse_account_record, List.getD, h9, hfit]
    refine ⟨hsome, ?_, ?_⟩
    · simp only [List.getD_eq_getElem?_getD] at hfit ⊢
      simp [List.length_take, List.length_drop]
      omega
    · simp [token_pair_name, hsome, from_utf8_or_default]

/-- C4 witness: the parse theorem applied at the 11-byte buffer whose
declared name length 2 fits exactly and whose name bytes `[255,255]` are
not valid UTF-8 — the placeholder is substituted, no error is raised. -/
theorem account_parse_spec_witness :
    parse_account_record [1, 0, 0, 0, 0, 0, 0, 0, 2, 255, 255]
      = some (1, 2, [255, 255]) ∧
    token_pair_name [1, 0, 0, 0, 0, 0, 0, 0, 2, 255, 255]
      = some invalid_utf8_placeholder := by
  have h := (account_parse_spec [1, 0, 0, 0, 0, 0, 0, 0, 2, 255, 255]).2.2
    (by decide) (by decide)
  exact ⟨h.1, by simpa using h.2.2⟩

/-- C5: evaluating the slicing code on the documented buffer.  The length
byte at offset 8 is 5 and exactly 5 bytes are read, but they are the bytes
at offsets 9..14, namely `[0,0,0,83,79]` ("\x00\x00\x00SO") — not
`[83,79,76,47,85]` ("SOL/U") as the claim states, and not the "SOL/USDC"
promised by the code's own comment at src/main.rs:807 (the name bytes
actually start at offset 12, after the 4-byte length field).  Those five
bytes are valid UTF-8, so the placeholder is not substituted and the code
prints the NUL-prefixed fragment. -/
theorem account_name_slice_eval :
    parse_account_record
        [1, 0, 0, 0, 255, 255, 255, 255, 5, 0, 0, 0, 83, 79, 76, 47, 85, 83, 68, 67]
      = some (1, 5, [0, 0, 0, 83, 79]) ∧
    token_pair_name
        [1, 0, 0, 0, 255, 255, 255, 255, 5, 0, 0, 0, 83, 79, 76, 47, 85, 83, 68, 67]
      = some [0, 0, 0, 83, 79] := by
  exact ⟨by decide, by decide⟩

/-- C6: dispatch of an under-length Transfer silently degrades.  For
every buffer with byte 0 = 2 and length at least 4 but below 12, dispatch
completes normally with only the bare informational Transfer report — no
error; and exactly when the length is at least 12 it extracts the amount
from bytes 4..8 and the recipient id from bytes 8..12, both as 4-byte
little-endian unsigned values. -/
theorem transfer_underlength_degrades (data : List Nat)
    (h4 : 4 ≤ data.length) (h0 : data.getD 0 0 = 2) :
    (data.length < 12 → process_instruction data = .transfer none) ∧
    (12 ≤ data.length → process_instruction data
      = .transfer (some
          (u32_from_le (data.getD 4 0) (data.getD 5 0) (data.getD 6 0) (data.getD 7 0),
           u32_from_le (data.getD 8 0) (data.getD 9 0) (data.getD 10 0) (data.getD 11 0)))) := by
  have hlt : ¬ data.length < 4 := Nat.not_lt.mpr h4
  simp only [List.getD_eq_getElem?_getD] at h0
  constructor
  · intro h12
    have hp : transfer_payload data = none := by
      simp [transfer_payload, Nat.not_le.mpr h12]
    simp [process_instruction, List.getD, hlt, h0, hp]
  · intro h12
    have hp : transfer_payload data
        = some (u32_from_le (data.getD 4 0) (data.getD 5 0) (data.getD 6 0) (data.getD 7 0),
                u32_from_le (data.getD 8 0) (data.getD 9 0) (data.getD 10 0) (data.getD 11 0)) := by
      simp [transfer_payload, h12]
    simp [process_instruction, List.getD, hlt, h0, hp]

/-- C6 witness: the degradation theorem applied at the 5-byte buffer
`[2,1,2,3,4]` (report only, no payload, no error) and at the 12-byte
buffer `[2,0,0,0,100,0,0,0,50,0,0,0]` (payload extracted). -/
theorem transfer_underlength_degrades_witness :
    process_instruction [2, 1, 2, 3, 4] = .transfer none ∧
    process_instruction [2, 0, 0, 0, 100, 0, 0, 0, 50, 0, 0, 0]
      = .transfer (some (100, 50)) := by
  refine ⟨(transfer_underlength_degrades [2, 1, 2, 3, 4] (by decide) (by decide)).1
      (by decide), ?_⟩
  have h := (transfer_underlength_degrades [2, 0, 0, 0, 100, 0, 0, 0, 50, 0, 0, 0]
      (by decide) (by decide)).2 (by decide)
  simpa [u32_from_le] using h

/-- C7: for every `TokenTransfer` — the variant that keeps the trait's
default validity — `is_valid()` equals `verify() && amount() > 0`; an
instance with `amount() == 0` is invalid whatever its signature, and an
instance whose signature does not start with `"0x"` is invalid whatever
its amount. -/
theorem tokenTransfer_is_valid_spec (t : TokenTransfer) :
    t.is_valid = (t.verify && decide (t.amount > 0)) ∧
    (t.amount = 0 → t.is_valid = false) ∧
    (starts_with t.sig "0x" = false → t.is_valid = false) := by
  refine ⟨rfl, fun h0 => ?_, fun hs => ?_⟩
  · simp [TokenTransfer.is_valid, transaction_default_is_valid, TokenTransfer.amount] at h0 ⊢
    simp [h0]
  · simp [TokenTransfer.is_valid, transaction_default_is_valid, TokenTransfer.verify, hs]

/-- C7 witness: the validity theorem applied at a zero-amount instance
with a well-formed signature and at a positive-amount instance whose
signature lacks the `"0x"` prefix; both are invalid. -/
theorem tokenTransfer_is_valid_spec_witness :
    TokenTransfer.is_valid ⟨"Alice", "Bob", 0, "0x123abc"⟩ = false ∧
    TokenTransfer.is_valid ⟨"Alice", "Bob", 5000000000, "sig"⟩ = false := by
  exact ⟨(tokenTransfer_is_valid_spec ⟨"Alice", "Bob", 0, "0x123abc"⟩).2.1 rfl,
         (tokenTransfer_is_valid_spec ⟨"Alice", "Bob", 5000000000, "sig"⟩).2.2 (by decide)⟩

/-- C8: for every `UserAccount` — whose `lamports()` returns the stored
balance, not a hardcoded constant — `is_rent_exempt()` holds exactly when
the balance reaches the 890 880 threshold; in particular it is false at
890 879 and true at 890 880. -/
theorem userAccount_rent_exempt_spec (a : UserAccount) :
    (a.is_rent_exempt = true ↔ RENT_EXEMPT_MIN_LAMPORTS ≤ a.lamports) ∧
    (a.lamports = 890879 → a.is_rent_exempt = false) ∧
    (a.lamports = 890880 → a.is_rent_exempt = true) := by
  refine ⟨?_, fun h => ?_, fun h => ?_⟩
  · simp [UserAccount.is_rent_exempt, account_default_is_rent_exempt]
  · simp [UserAccount.is_rent_exempt, account_default_is_rent_exempt, h,
      RENT_EXEMPT_MIN_LAMPORTS]
  · simp [UserAccount.is_rent_exempt, account_default_is_rent_exempt, h,
      RENT_EXEMPT_MIN_LAMPORTS]

/-- C8 witness: the rent-exemption theorem applied on both sides of the
boundary. -/
theorem userAccount_rent_exempt_spec_witness :
    UserAccount.is_rent_exempt ⟨"Alice", 890879⟩ = false ∧
    UserAccount.is_rent_exempt ⟨"Alice", 890880⟩ = true := by
  exact ⟨(userAccount_rent_exempt_spec ⟨"Alice", 890879⟩).2.1 rfl,
         (userAccount_rent_exempt_spec ⟨"Alice", 890880⟩).2.2 rfl⟩

/-- C9: the `From<TokenError> for ComplexError` conversion is a total
function on the four domain kinds (it is a Lean function, defined on every
constructor), and it is lossless: the original domain kind is recovered
exactly from the converted value, so the mapping is injective and discards
no information. -/
theorem tokenError_conversion_lossless (e : TokenError) :
    ComplexError.token_kind (ComplexError.fromTokenError e) = some e := by
  cases e <;> rfl

/-- C10: the explicit-`match` propagation and the `?`-operator propagation
compute the same function: for every `(from, to, amount)` input they
return the same `Ok` string or the same `TokenError`. -/
theorem process_transaction_equiv (from_addr to_addr : String) (amount : Nat) :
    process_transaction_with_result from_addr to_addr amount
      = process_transaction_with_question_mark from_addr to_addr amount := by
  unfold process_transaction_with_result process_transaction_with_question_mark
  cases h1 : find_account from_addr
  · simp [option_ok_or, Except.bind, bind]
  · cases h2 : find_account to_addr
    · simp [option_ok_or, Except.bind, bind]
    · cases h3 : transfer_tokens from_addr to_addr amount <;>
        simp [option_ok_or, Except.bind, bind, pure, Except.pure, h3]

end SimplyRust
